import Mathlib

/-!
Shallow embedding of the macOS secure-enclave key-handle glue
(`src/tpm/macos/key_handle.rs`) and of the swift-bridge wrapper crate
(`src/tpm/macos/swift_rust_wrapper/src/lib.rs`).

Byte sequences (`&[u8]` / `Vec<u8>`) are modelled as `List Nat` with values
below 256; Rust `String` values are modelled as their list of Unicode scalar
values (`List Nat`), so that `String::from_utf8` becomes an executable UTF-8
decoder and `String::into_bytes` the matching encoder.  The foreign
secure-enclave binding is an uninterpreted backend record: the Rust code under
verification only forwards to it and post-processes its string responses.
-/

/-- Byte sequences as they cross the Rust API (`&[u8]`, `Vec<u8>`). -/
abbrev Bytes := List Nat

/-- Rust `String` values, modelled as the list of their Unicode scalar values. -/
abbrev RStr := List Nat

/-- Unicode scalar values of a Lean string literal, used to embed the string
constants appearing in the Rust source. -/
def strLit (s : String) : RStr :=
  s.data.map Char.toNat

/-- Continuation-byte test for UTF-8 (`0x80 ≤ b ≤ 0xBF`). -/
def isCont (b : Nat) : Bool :=
  decide (128 ≤ b ∧ b ≤ 191)

/-- Executable model of Rust `String::from_utf8` on the byte list: returns the
scalar values when the bytes are well-formed UTF-8 (no overlong forms, no
surrogates, scalar values at most U+10FFFF), `none` otherwise. -/
def utf8Decode : List Nat → Option (List Nat)
  | [] => some []
  | b0 :: tl =>
    if b0 ≤ 127 then
      match utf8Decode tl with
      | some cs => some (b0 :: cs)
      | none => none
    else if 192 ≤ b0 ∧ b0 ≤ 223 then
      match tl with
      | b1 :: tl1 =>
        if isCont b1 then
          let c := (b0 - 192) * 64 + (b1 - 128)
          if 128 ≤ c then
            match utf8Decode tl1 with
            | some cs => some (c :: cs)
            | none => none
          else none
        else none
      | [] => none
    else if 224 ≤ b0 ∧ b0 ≤ 239 then
      match tl with
      | b1 :: b2 :: tl2 =>
        if isCont b1 && isCont b2 then
          let c := (b0 - 224) * 4096 + (b1 - 128) * 64 + (b2 - 128)
          if 2048 ≤ c ∧ (c < 55296 ∨ 57343 < c) then
            match utf8Decode tl2 with
            | some cs => some (c :: cs)
            | none => none
          else none
        else none
      | _ => none
    else if 240 ≤ b0 ∧ b0 ≤ 247 then
      match tl with
      | b1 :: b2 :: b3 :: tl3 =>
        if isCont b1 && isCont b2 && isCont b3 then
          let c := (b0 - 240) * 262144 + (b1 - 128) * 4096 + (b2 - 128) * 64
            + (b3 - 128)
          if 65536 ≤ c ∧ c ≤ 1114111 then
            match utf8Decode tl3 with
            | some cs => some (c :: cs)
            | none => none
          else none
        else none
      | _ => none
    else none

/-- Executable model of Rust `String::into_bytes` (UTF-8 encoding of the
scalar values). -/
def utf8Encode : List Nat → List Nat
  | [] => []
  | c :: cs =>
    (if c ≤ 127 then [c]
     else if c ≤ 2047 then [192 + c / 64, 128 + c % 64]
     else if c ≤ 65535 then [224 + c / 4096, 128 + (c / 64) % 64, 128 + c % 64]
     else [240 + c / 262144, 128 + (c / 4096) % 64, 128 + (c / 64) % 64,
        128 + c % 64]) ++ utf8Encode cs

example : utf8Decode (strLit "true") = some (strLit "true") := by decide
example : utf8Decode [255] = none := by decide
example : utf8Decode [128] = none := by decide
example : utf8Decode [222, 173, 190, 239] = none := by decide
example : utf8Decode [] = some [] := by rfl
example : utf8Encode (strLit "ok") = strLit "ok" := by decide

/-- The error enumeration crossing the provider boundary
(`SecurityModuleError` in `common/error.rs`); each variant carries its
message string. -/
inductive SecurityModuleError where
  | SigningError : RStr → SecurityModuleError
  | DecryptionError : RStr → SecurityModuleError
  | EncryptionError : RStr → SecurityModuleError
  | SignatureVerificationError : RStr → SecurityModuleError
  | DataConversionError : RStr → SecurityModuleError
  | BackendError : RStr → SecurityModuleError
  deriving DecidableEq, Repr

/-- The foreign secure-enclave binding
(`apple_secure_enclave_bindings::keyhandle`) as used by `key_handle.rs`:
every call takes the key id and string payloads and answers with a string.
The binding is uninterpreted; the code under verification only forwards to
it. -/
structure Backend where
  sign : RStr → RStr → RStr
  decrypt : RStr → RStr → RStr
  encrypt : RStr → RStr → RStr
  verify : RStr → RStr → RStr → RStr

/-- The provider value implementing `KeyHandle` (`TpmProvider`); the
operations read only its `key_id` field. -/
structure TpmProvider where
  key_id : RStr
  deriving DecidableEq, Repr

/-- ASCII case folding of one scalar value, the folding relevant to the
pattern `(?i)error`: no scalar value outside A-Z case-folds to any of
`e`, `r`, `o`. -/
def foldChar (c : Nat) : Nat :=
  if 65 ≤ c ∧ c ≤ 90 then c + 32 else c

/-- A compiled regex of the restricted shape this code uses: an optional
`(?i)` flag followed by a literal. -/
structure ErrRe where
  ci : Bool
  lit : RStr
  deriving DecidableEq, Repr

/-- Boolean prefix test on scalar-value lists. -/
def startsWithB : List Nat → List Nat → Bool
  | [], _ => true
  | _ :: _, [] => false
  | p :: ps, s :: ss => (p == s) && startsWithB ps ss

/-- Boolean contiguous-substring test on scalar-value lists. -/
def hasInfixB (pat : List Nat) : List Nat → Bool
  | [] => startsWithB pat []
  | s :: ss => startsWithB pat (s :: ss) || hasInfixB pat ss

/-- Matching of the compiled literal regex against a subject string
(`Regex::is_match`): substring search, case-insensitively when the `(?i)`
flag is set. -/
def ErrRe.isMatch (re : ErrRe) (s : RStr) : Bool :=
  if re.ci then hasInfixB (re.lit.map foldChar) (s.map foldChar)
  else hasInfixB re.lit s

/-- ASCII-letter test used to delimit the literal fragment of a pattern. -/
def isAsciiAlpha (c : Nat) : Bool :=
  decide ((65 ≤ c ∧ c ≤ 90) ∨ (97 ≤ c ∧ c ≤ 122))

/-- Model of `Regex::new`, restricted to the pattern fragment this code ever
compiles: an optional leading `(?i)` flag followed by a non-empty literal of
ASCII letters.  Patterns outside the fragment are a compile error (`none`),
which `unwrap` would turn into a panic. -/
def regexNew (pat : RStr) : Option ErrRe :=
  match pat with
  | 40 :: 63 :: 105 :: 41 :: rest =>
    if rest ≠ [] ∧ rest.all isAsciiAlpha then some ⟨true, rest⟩ else none
  | _ =>
    if pat ≠ [] ∧ pat.all isAsciiAlpha then some ⟨false, pat⟩ else none

/-- The constant pattern compiled by `sign_data`, `encrypt_data` and
`decrypt_data`. -/
def errorPattern : RStr := strLit "(?i)error"

/-- The compiled form of `errorPattern`. -/
def errorRe : ErrRe := ⟨true, strLit "error"⟩

/-- Compiling the constant pattern succeeds, so the `unwrap` on it cannot
panic. -/
theorem regexNew_errorPattern : regexNew errorPattern = some errorRe := by
  decide

/-- The error sniff applied to every backend response of the sign, encrypt
and decrypt paths: `Regex::new("(?i)error").unwrap().is_match(response)`. -/
def errorMatch (s : RStr) : Bool :=
  ErrRe.isMatch errorRe s

example : errorMatch (strLit "Error: key not found") = true := by decide
example : errorMatch (strLit "ERROR") = true := by decide
example : errorMatch (strLit "ok-payload") = false := by decide
example : errorMatch (strLit "tERrOr strikes") = true := by decide

/-- The message built on every failed `String::from_utf8` conversion of a
data payload. -/
def dataConversionMsg : RStr := strLit "Data conversion error"

/-- The message built when the signature argument of `verify_signature` is
not valid UTF-8. -/
def signatureConversionMsg : RStr := strLit "Signature conversion error"

/-- Embedding of `TpmProvider::sign_data` (key_handle.rs lines 14-37):
UTF-8-decode the payload (rejecting it with `SigningError` otherwise),
forward to the binding, then sniff the response with `(?i)error`; note the
source maps a matching response to `EncryptionError`. -/
def signData (be : Backend) (self : TpmProvider) (data : Bytes) :
    Except SecurityModuleError Bytes :=
  match utf8Decode data with
  | none => .error (.SigningError dataConversionMsg)
  | some string_data =>
    let signed_data := be.sign self.key_id string_data
    if errorMatch signed_data then .error (.EncryptionError signed_data)
    else .ok (utf8Encode signed_data)

/-- Embedding of `TpmProvider::decrypt_data` (key_handle.rs lines 40-58):
rejects non-UTF-8 ciphertext with `DecryptionError`, forwards, sniffs the
response; a matching response becomes `EncryptionError` in the source. -/
def decryptData (be : Backend) (self : TpmProvider) (encrypted_data : Bytes) :
    Except SecurityModuleError Bytes :=
  match utf8Decode encrypted_data with
  | none => .error (.DecryptionError dataConversionMsg)
  | some string_data =>
    let decrypted_data := be.decrypt self.key_id string_data
    if errorMatch decrypted_data then .error (.EncryptionError decrypted_data)
    else .ok (utf8Encode decrypted_data)

/-- Embedding of `TpmProvider::encrypt_data` (key_handle.rs lines 61-86). -/
def encryptData (be : Backend) (self : TpmProvider) (data : Bytes) :
    Except SecurityModuleError Bytes :=
  match utf8Decode data with
  | none => .error (.EncryptionError dataConversionMsg)
  | some string_data =>
    let encrypted_data := be.encrypt self.key_id string_data
    if errorMatch encrypted_data then .error (.EncryptionError encrypted_data)
    else .ok (utf8Encode encrypted_data)

/-- Embedding of `TpmProvider::verify_signature` (key_handle.rs lines
89-115): both the data and the signature must be valid UTF-8; the backend
response is matched against exactly `"true"` and `"false"`, anything else
is a `SignatureVerificationError` carrying the raw response. -/
def verifySignature (be : Backend) (self : TpmProvider)
    (data signature : Bytes) : Except SecurityModuleError Bool :=
  match utf8Decode data with
  | none => .error (.SignatureVerificationError dataConversionMsg)
  | some string_data =>
    match utf8Decode signature with
    | none => .error (.SignatureVerificationError signatureConversionMsg)
    | some string_signature =>
      let verification_result :=
        be.verify self.key_id string_data string_signature
      if verification_result = strLit "true" then .ok true
      else if verification_result = strLit "false" then .ok false
      else .error (.SignatureVerificationError verification_result)

/-- A backend whose every response is the fixed string `r`; used to
evaluate the operations at concrete inputs. -/
def constBackend (r : RStr) : Backend :=
  { sign := fun _ _ => r
    decrypt := fun _ _ => r
    encrypt := fun _ _ => r
    verify := fun _ _ _ => r }

example :
    verifySignature (constBackend (strLit "true")) ⟨strLit "k"⟩ [] [] =
      .ok true := by rfl
example :
    signData (constBackend (strLit "sig")) ⟨strLit "k"⟩ (strLit "hi") =
      .ok (strLit "sig") := by rfl
example :
    signData (constBackend (strLit "An Error occurred")) ⟨strLit "k"⟩ [] =
      .error (.EncryptionError (strLit "An Error occurred")) := by rfl

/-! Panic-instrumented variants: the same translations, with the
`Regex::new(...).unwrap()` call made explicit.  A `none` result models a
process abort (the `unwrap` panicking on a failed regex compilation); every
other outcome is `some` of the returned `Result`. -/

/-- `sign_data` with the `unwrap` made explicit. -/
def signDataP (be : Backend) (self : TpmProvider) (data : Bytes) :
    Option (Except SecurityModuleError Bytes) :=
  match utf8Decode data with
  | none => some (.error (.SigningError dataConversionMsg))
  | some string_data =>
    let signed_data := be.sign self.key_id string_data
    match regexNew errorPattern with
    | none => none
    | some re =>
      some (if re.isMatch signed_data then .error (.EncryptionError signed_data)
        else .ok (utf8Encode signed_data))

/-- `decrypt_data` with the `unwrap` made explicit. -/
def decryptDataP (be : Backend) (self : TpmProvider)
    (encrypted_data : Bytes) : Option (Except SecurityModuleError Bytes) :=
  match utf8Decode encrypted_data with
  | none => some (.error (.DecryptionError dataConversionMsg))
  | some string_data =>
    let decrypted_data := be.decrypt self.key_id string_data
    match regexNew errorPattern with
    | none => none
    | some re =>
      some (if re.isMatch decrypted_data then
          .error (.EncryptionError decrypted_data)
        else .ok (utf8Encode decrypted_data))

/-- `encrypt_data` with the `unwrap` made explicit. -/
def encryptDataP (be : Backend) (self : TpmProvider) (data : Bytes) :
    Option (Except SecurityModuleError Bytes) :=
  match utf8Decode data with
  | none => some (.error (.EncryptionError dataConversionMsg))
  | some string_data =>
    let encrypted_data := be.encrypt self.key_id string_data
    match regexNew errorPattern with
    | none => none
    | some re =>
      some (if re.isMatch encrypted_data then
          .error (.EncryptionError encrypted_data)
        else .ok (utf8Encode encrypted_data))

/-! State-passing variants: the provider value is threaded through every
step, so that preservation of the handle state is a statement about the
translation rather than a typing convention.  The Rust methods take
`&self` and `TpmProvider` has no interior mutability, so no step writes
the state. -/

/-- `sign_data` with the receiver threaded explicitly. -/
def signDataS (be : Backend) (s0 : TpmProvider) (data : Bytes) :
    TpmProvider × Except SecurityModuleError Bytes :=
  match utf8Decode data with
  | none => (s0, .error (.SigningError dataConversionMsg))
  | some string_data =>
    let key_id := s0.key_id
    let signed_data := be.sign key_id string_data
    if errorMatch signed_data then (s0, .error (.EncryptionError signed_data))
    else (s0, .ok (utf8Encode signed_data))

/-- `decrypt_data` with the receiver threaded explicitly. -/
def decryptDataS (be : Backend) (s0 : TpmProvider) (encrypted_data : Bytes) :
    TpmProvider × Except SecurityModuleError Bytes :=
  match utf8Decode encrypted_data with
  | none => (s0, .error (.DecryptionError dataConversionMsg))
  | some string_data =>
    let decrypted_data := be.decrypt s0.key_id string_data
    if errorMatch decrypted_data then
      (s0, .error (.EncryptionError decrypted_data))
    else (s0, .ok (utf8Encode decrypted_data))

/-- `encrypt_data` with the receiver threaded explicitly. -/
def encryptDataS (be : Backend) (s0 : TpmProvider) (data : Bytes) :
    TpmProvider × Except SecurityModuleError Bytes :=
  match utf8Decode data with
  | none => (s0, .error (.EncryptionError dataConversionMsg))
  | some string_data =>
    let key_id := s0.key_id
    let encrypted_data := be.encrypt key_id string_data
    if errorMatch encrypted_data then
      (s0, .error (.EncryptionError encrypted_data))
    else (s0, .ok (utf8Encode encrypted_data))

/-- `verify_signature` with the receiver threaded explicitly. -/
def verifySignatureS (be : Backend) (s0 : TpmProvider)
    (data signature : Bytes) : TpmProvider × Except SecurityModuleError Bool :=
  match utf8Decode data with
  | none => (s0, .error (.SignatureVerificationError dataConversionMsg))
  | some string_data =>
    match utf8Decode signature with
    | none => (s0, .error (.SignatureVerificationError signatureConversionMsg))
    | some string_signature =>
      let key_id := s0.key_id
      let verification_result := be.verify key_id string_data string_signature
      if verification_result = strLit "true" then (s0, .ok true)
      else if verification_result = strLit "false" then (s0, .ok false)
      else (s0, .error (.SignatureVerificationError verification_result))

/-! Embedding of the `swift_rust_wrapper` crate
(`src/tpm/macos/swift_rust_wrapper/src/lib.rs`).  The `ffi` module declares
the Swift-side functions; they are uninterpreted here.  The `provider` and
`keyhandle` modules wrap each of them. -/

/-- The Swift-side functions declared in the bridge module `ffi`.  The
field `init_module` models `initialize_module`, given a `Unit` argument to
stay a function. -/
structure FFI where
  init_module : Unit → Bool
  rustcall_create_key : RStr → RStr → Bool × RStr
  rustcall_load_key : RStr → RStr → RStr → Bool × RStr
  rustcall_encrypt_data : RStr → Bytes → RStr → RStr → Bool × RStr
  rustcall_decrypt_data : RStr → Bytes → RStr → RStr → Bool × RStr
  rustcall_sign_data : RStr → Bytes → RStr → RStr → Bool × RStr
  rustcall_verify_signature : RStr → Bytes → Bytes → RStr → RStr → Bool × RStr

/-- Wrapper `provider::rust_crypto_call_create_key`. -/
def rust_crypto_call_create_key (f : FFI) (key_id key_type : RStr) :
    Bool × RStr :=
  f.rustcall_create_key key_id key_type

/-- Wrapper `provider::rust_crypto_call_load_key`. -/
def rust_crypto_call_load_key (f : FFI) (key_id key_type hash : RStr) :
    Bool × RStr :=
  f.rustcall_load_key key_id key_type hash

/-- Wrapper `provider::rust_crypto_call_initialize_module` (named
`init_module` here). -/
def rust_crypto_call_init_module (f : FFI) : Bool :=
  f.init_module ()

/-- Wrapper `keyhandle::rust_crypto_call_encrypt_data`. -/
def rust_crypto_call_encrypt_data (f : FFI) (key_id : RStr) (data : Bytes)
    (algorithm hash : RStr) : Bool × RStr :=
  f.rustcall_encrypt_data key_id data algorithm hash

/-- Wrapper `keyhandle::rust_crypto_call_decrypt_data`. -/
def rust_crypto_call_decrypt_data (f : FFI) (key_id : RStr) (data : Bytes)
    (algorithm hash : RStr) : Bool × RStr :=
  f.rustcall_decrypt_data key_id data algorithm hash

/-- Wrapper `keyhandle::rust_crypto_call_sign_data`. -/
def rust_crypto_call_sign_data (f : FFI) (key_id : RStr) (data : Bytes)
    (algorithm hash : RStr) : Bool × RStr :=
  f.rustcall_sign_data key_id data algorithm hash

/-- Wrapper `keyhandle::rust_crypto_call_verify_signature`. -/
def rust_crypto_call_verify_signature (f : FFI) (key_id : RStr)
    (string_data string_signature : Bytes) (algorithm hash : RStr) :
    Bool × RStr :=
  f.rustcall_verify_signature key_id string_data string_signature
    algorithm hash

/-- C1: the claim fails on the code.  On the invalid-UTF-8 payload
`[0xFF]`, every key-handle operation returns a conversion error before any
backend call, for every backend and every key handle, contradicting the
requirement that no operation errors merely because its input is not valid
UTF-8 text. -/
theorem keyHandle_rejects_invalid_utf8 (be : Backend) (p : TpmProvider)
    (sig : Bytes) :
    signData be p [255] = .error (.SigningError dataConversionMsg) ∧
    decryptData be p [255] = .error (.DecryptionError dataConversionMsg) ∧
    encryptData be p [255] = .error (.EncryptionError dataConversionMsg) ∧
    verifySignature be p [255] sig =
      .error (.SignatureVerificationError dataConversionMsg) := by
  refine ⟨rfl, rfl, rfl, rfl⟩

/-- C2: the claim fails on the code.  On the binary payload `[0x80]`,
`encrypt_data` returns a conversion error instead of a ciphertext, so the
encrypt-then-decrypt round trip cannot return the payload; `decrypt_data`
likewise rejects any non-UTF-8 ciphertext.  This holds for every backend,
correct or not. -/
theorem encrypt_decrypt_no_roundtrip_on_binary (be : Backend)
    (p : TpmProvider) :
    encryptData be p [128] = .error (.EncryptionError dataConversionMsg) ∧
    decryptData be p [128] = .error (.DecryptionError dataConversionMsg) ∧
    ∀ ct, encryptData be p [128] ≠ .ok ct := by
  have he : encryptData be p [128] =
      .error (.EncryptionError dataConversionMsg) := rfl
  refine ⟨he, rfl, fun ct h => ?_⟩
  rw [he] at h
  simp at h

/-- C3: the claim fails on the code.  On the byte sequence
`[0xDE, 0xAD, 0xBE, 0xEF]` (the spec's own example payload, not valid
UTF-8), `sign_data` returns a conversion error, so no signature exists, and
`verify_signature` on that data errors for every signature; hence
`verify(d, sign(d)) = Ok(true)` fails for this `d` under every backend. -/
theorem sign_verify_no_roundtrip_on_binary (be : Backend) (p : TpmProvider)
    (sig : Bytes) :
    signData be p [222, 173, 190, 239] =
      .error (.SigningError dataConversionMsg) ∧
    verifySignature be p [222, 173, 190, 239] sig =
      .error (.SignatureVerificationError dataConversionMsg) := by
  refine ⟨rfl, rfl⟩

/-- C7: the claim fails on the code.  Against a backend whose sign and
decrypt responses are the failure string `"error"`, `sign_data` returns
`EncryptionError` (key_handle.rs line 31) instead of `SigningError`, and
`decrypt_data` returns `EncryptionError` (line 52) instead of
`DecryptionError`; only the message is carried through unchanged. -/
theorem backend_failure_mapped_to_wrong_variant :
    signData (constBackend (strLit "error")) ⟨strLit "k"⟩ [] =
      .error (.EncryptionError (strLit "error")) ∧
    decryptData (constBackend (strLit "error")) ⟨strLit "k"⟩ [] =
      .error (.EncryptionError (strLit "error")) ∧
    (∀ msg, signData (constBackend (strLit "error")) ⟨strLit "k"⟩ [] ≠
      .error (.SigningError msg)) ∧
    (∀ msg, decryptData (constBackend (strLit "error")) ⟨strLit "k"⟩ [] ≠
      .error (.DecryptionError msg)) := by
  have hs : signData (constBackend (strLit "error")) ⟨strLit "k"⟩ [] =
      .error (.EncryptionError (strLit "error")) := rfl
  have hd : decryptData (constBackend (strLit "error")) ⟨strLit "k"⟩ [] =
      .error (.EncryptionError (strLit "error")) := rfl
  refine ⟨hs, hd, fun msg h => ?_, fun msg h => ?_⟩
  · rw [hs] at h
    simp at h
  · rw [hd] at h
    simp at h

/-- Helper: once both inputs decode, `verify_signature` is the three-way
match on the backend response. -/
theorem verifySignature_spec (be : Backend) (p : TpmProvider)
    (data sig : Bytes) (sd ss : RStr) (hd : utf8Decode data = some sd)
    (hs : utf8Decode sig = some ss) :
    verifySignature be p data sig =
      (if be.verify p.key_id sd ss = strLit "true" then .ok true
       else if be.verify p.key_id sd ss = strLit "false" then .ok false
       else .error (.SignatureVerificationError (be.verify p.key_id sd ss))) := by
  simp only [verifySignature, hd, hs]

/-- C4: whenever the backend comparison is reached (both inputs decode),
`verify_signature` returns `Ok(true)` exactly for the response `"true"`,
`Ok(false)` exactly for `"false"`, and otherwise an error carrying the raw
backend response. -/
theorem verify_three_way_on_backend_response (be : Backend)
    (p : TpmProvider) (data sig : Bytes) (sd ss : RStr)
    (hd : utf8Decode data = some sd) (hs : utf8Decode sig = some ss) :
    (verifySignature be p data sig = .ok true ↔
      be.verify p.key_id sd ss = strLit "true") ∧
    (verifySignature be p data sig = .ok false ↔
      be.verify p.key_id sd ss = strLit "false") ∧
    (be.verify p.key_id sd ss ≠ strLit "true" →
      be.verify p.key_id sd ss ≠ strLit "false" →
      verifySignature be p data sig =
        .error (.SignatureVerificationError (be.verify p.key_id sd ss))) := by
  rw [verifySignature_spec be p data sig sd ss hd hs]
  by_cases h1 : be.verify p.key_id sd ss = strLit "true" <;>
    by_cases h2 : be.verify p.key_id sd ss = strLit "false" <;>
    simp [h1, h2] <;> decide

/-- C4 witness: a backend answering `"true"` on empty decodable inputs. -/
theorem verify_three_way_on_backend_response_witness :
    (verifySignature (constBackend (strLit "true")) ⟨strLit "k"⟩ [] [] =
        .ok true ↔
      (constBackend (strLit "true")).verify
        (TpmProvider.mk (strLit "k")).key_id [] [] = strLit "true") ∧
    (verifySignature (constBackend (strLit "true")) ⟨strLit "k"⟩ [] [] =
        .ok false ↔
      (constBackend (strLit "true")).verify
        (TpmProvider.mk (strLit "k")).key_id [] [] = strLit "false") ∧
    ((constBackend (strLit "true")).verify
        (TpmProvider.mk (strLit "k")).key_id [] [] ≠ strLit "true" →
      (constBackend (strLit "true")).verify
        (TpmProvider.mk (strLit "k")).key_id [] [] ≠ strLit "false" →
      verifySignature (constBackend (strLit "true")) ⟨strLit "k"⟩ [] [] =
        .error (.SignatureVerificationError
          ((constBackend (strLit "true")).verify
            (TpmProvider.mk (strLit "k")).key_id [] []))) :=
  verify_three_way_on_backend_response (constBackend (strLit "true"))
    ⟨strLit "k"⟩ [] [] [] [] rfl rfl

/-- C5: `verify_signature` never returns `Ok` unless the backend response is
exactly `"true"` or `"false"`. -/
theorem verify_ok_only_canonical (be : Backend) (p : TpmProvider)
    (data sig : Bytes) (b : Bool)
    (h : verifySignature be p data sig = .ok b) :
    ∃ sd ss, utf8Decode data = some sd ∧ utf8Decode sig = some ss ∧
      (be.verify p.key_id sd ss = strLit "true" ∨
       be.verify p.key_id sd ss = strLit "false") := by
  unfold verifySignature at h
  cases hd : utf8Decode data with
  | none => rw [hd] at h; simp at h
  | some sd =>
    rw [hd] at h
    cases hs : utf8Decode sig with
    | none => rw [hs] at h; simp at h
    | some ss =>
      rw [hs] at h
      simp only at h
      refine ⟨sd, ss, rfl, rfl, ?_⟩
      split at h
      · exact Or.inl (by assumption)
      · split at h
        · exact Or.inr (by assumption)
        · simp at h

/-- C5 witness: an `Ok` outcome at concrete inputs comes from a canonical
response. -/
theorem verify_ok_only_canonical_witness :
    ∃ sd ss, utf8Decode ([] : Bytes) = some sd ∧
      utf8Decode ([] : Bytes) = some ss ∧
      ((constBackend (strLit "false")).verify
          (TpmProvider.mk (strLit "k")).key_id sd ss = strLit "true" ∨
       (constBackend (strLit "false")).verify
          (TpmProvider.mk (strLit "k")).key_id sd ss = strLit "false") :=
  verify_ok_only_canonical (constBackend (strLit "false")) ⟨strLit "k"⟩
    [] [] false rfl

/-- C6: once the input decodes and the backend call is reached, each of
`sign_data`, `encrypt_data`, `decrypt_data` errors exactly when the
response matches `(?i)error`, and otherwise returns `Ok` of the UTF-8
bytes of the response string. -/
theorem ops_error_iff_regex_match (be : Backend) (p : TpmProvider)
    (data : Bytes) (sd : RStr) (hd : utf8Decode data = some sd) :
    ((∃ e, signData be p data = .error e) ↔
      errorMatch (be.sign p.key_id sd) = true) ∧
    (errorMatch (be.sign p.key_id sd) = false →
      signData be p data = .ok (utf8Encode (be.sign p.key_id sd))) ∧
    ((∃ e, encryptData be p data = .error e) ↔
      errorMatch (be.encrypt p.key_id sd) = true) ∧
    (errorMatch (be.encrypt p.key_id sd) = false →
      encryptData be p data = .ok (utf8Encode (be.encrypt p.key_id sd))) ∧
    ((∃ e, decryptData be p data = .error e) ↔
      errorMatch (be.decrypt p.key_id sd) = true) ∧
    (errorMatch (be.decrypt p.key_id sd) = false →
      decryptData be p data = .ok (utf8Encode (be.decrypt p.key_id sd))) := by
  refine ⟨?_, ?_, ?_, ?_, ?_, ?_⟩ <;>
    simp only [signData, encryptData, decryptData, hd]
  · cases hm : errorMatch (be.sign p.key_id sd) <;> simp [hm]
  · intro hm; simp [hm]
  · cases hm : errorMatch (be.encrypt p.key_id sd) <;> simp [hm]
  · intro hm; simp [hm]
  · cases hm : errorMatch (be.decrypt p.key_id sd) <;> simp [hm]
  · intro hm; simp [hm]

/-- C6 witness: a backend answering the non-matching string `"ok"` on the
empty (decodable) payload. -/
theorem ops_error_iff_regex_match_witness :
    ((∃ e, signData (constBackend (strLit "ok")) ⟨strLit "k"⟩ [] =
        .error e) ↔
      errorMatch ((constBackend (strLit "ok")).sign
        (TpmProvider.mk (strLit "k")).key_id []) = true) ∧
    (errorMatch ((constBackend (strLit "ok")).sign
        (TpmProvider.mk (strLit "k")).key_id []) = false →
      signData (constBackend (strLit "ok")) ⟨strLit "k"⟩ [] =
        .ok (utf8Encode ((constBackend (strLit "ok")).sign
          (TpmProvider.mk (strLit "k")).key_id []))) ∧
    ((∃ e, encryptData (constBackend (strLit "ok")) ⟨strLit "k"⟩ [] =
        .error e) ↔
      errorMatch ((constBackend (strLit "ok")).encrypt
        (TpmProvider.mk (strLit "k")).key_id []) = true) ∧
    (errorMatch ((constBackend (strLit "ok")).encrypt
        (TpmProvider.mk (strLit "k")).key_id []) = false →
      encryptData (constBackend (strLit "ok")) ⟨strLit "k"⟩ [] =
        .ok (utf8Encode ((constBackend (strLit "ok")).encrypt
          (TpmProvider.mk (strLit "k")).key_id []))) ∧
    ((∃ e, decryptData (constBackend (strLit "ok")) ⟨strLit "k"⟩ [] =
        .error e) ↔
      errorMatch ((constBackend (strLit "ok")).decrypt
        (TpmProvider.mk (strLit "k")).key_id []) = true) ∧
    (errorMatch ((constBackend (strLit "ok")).decrypt
        (TpmProvider.mk (strLit "k")).key_id []) = false →
      decryptData (constBackend (strLit "ok")) ⟨strLit "k"⟩ [] =
        .ok (utf8Encode ((constBackend (strLit "ok")).decrypt
          (TpmProvider.mk (strLit "k")).key_id []))) :=
  ops_error_iff_regex_match (constBackend (strLit "ok")) ⟨strLit "k"⟩
    [] [] rfl

/-- C8: every operation returns a `Result` value: the explicit-panic
translations of `sign_data`, `encrypt_data` and `decrypt_data` always
return `some` of the plain translation's value (the `unwrap` of
`Regex::new("(?i)error")` cannot fire because the constant pattern
compiles), and `verify_signature` always yields either an `Ok` or an
`Err`. -/
theorem ops_return_result_never_panic (be : Backend) (p : TpmProvider)
    (data sig : Bytes) :
    regexNew errorPattern = some errorRe ∧
    signDataP be p data = some (signData be p data) ∧
    encryptDataP be p data = some (encryptData be p data) ∧
    decryptDataP be p data = some (decryptData be p data) ∧
    ((∃ b, verifySignature be p data sig = .ok b) ∨
     (∃ e, verifySignature be p data sig = .error e)) := by
  refine ⟨regexNew_errorPattern, ?_, ?_, ?_, ?_⟩
  · cases hd : utf8Decode data <;>
      simp [signDataP, signData, hd, regexNew_errorPattern, errorMatch]
  · cases hd : utf8Decode data <;>
      simp [encryptDataP, encryptData, hd, regexNew_errorPattern, errorMatch]
  · cases hd : utf8Decode data <;>
      simp [decryptDataP, decryptData, hd, regexNew_errorPattern, errorMatch]
  · cases hv : verifySignature be p data sig with
    | ok b => exact Or.inl ⟨b, rfl⟩
    | error e => exact Or.inr ⟨e, rfl⟩

/-- C9: the four operations leave the handle unchanged on every path: the
state-passing translations return the initial provider value (hence an
unchanged `key_id`) alongside exactly the plain translation's result. -/
theorem ops_preserve_handle_state (be : Backend) (p : TpmProvider)
    (data sig : Bytes) :
    signDataS be p data = (p, signData be p data) ∧
    decryptDataS be p data = (p, decryptData be p data) ∧
    encryptDataS be p data = (p, encryptData be p data) ∧
    verifySignatureS be p data sig = (p, verifySignature be p data sig) ∧
    ((signDataS be p data).1).key_id = p.key_id := by
  have hsg : signDataS be p data = (p, signData be p data) := by
    unfold signDataS signData
    cases utf8Decode data <;> simp <;> split <;> rfl
  have hdc : decryptDataS be p data = (p, decryptData be p data) := by
    unfold decryptDataS decryptData
    cases utf8Decode data <;> simp <;> split <;> rfl
  have hen : encryptDataS be p data = (p, encryptData be p data) := by
    unfold encryptDataS encryptData
    cases utf8Decode data <;> simp <;> split <;> rfl
  have hvf : verifySignatureS be p data sig =
      (p, verifySignature be p data sig) := by
    unfold verifySignatureS verifySignature
    cases utf8Decode data with
    | none => rfl
    | some sd =>
      cases utf8Decode sig with
      | none => rfl
      | some ss =>
        by_cases h1 : be.verify p.key_id sd ss = strLit "true" <;>
          by_cases h2 : be.verify p.key_id sd ss = strLit "false" <;>
          simp [h1, h2]
        rw [if_neg (by decide)]
        rw [if_neg (by decide)]
  exact ⟨hsg, hdc, hen, hvf, by rw [hsg]⟩

/-- C10: every wrapper of the swift_rust_wrapper crate returns exactly the
corresponding `ffi` function applied to the same arguments in the same
order. -/
theorem wrappers_pass_through (f : FFI) (a b c : RStr) (v w : Bytes) :
    rust_crypto_call_create_key f a b = f.rustcall_create_key a b ∧
    rust_crypto_call_load_key f a b c = f.rustcall_load_key a b c ∧
    rust_crypto_call_init_module f = f.init_module () ∧
    rust_crypto_call_encrypt_data f a v b c =
      f.rustcall_encrypt_data a v b c ∧
    rust_crypto_call_decrypt_data f a v b c =
      f.rustcall_decrypt_data a v b c ∧
    rust_crypto_call_sign_data f a v b c = f.rustcall_sign_data a v b c ∧
    rust_crypto_call_verify_signature f a v w b c =
      f.rustcall_verify_signature a v w b c :=
  ⟨rfl, rfl, rfl, rfl, rfl, rfl, rfl⟩
